import Mathlib

/-!
Verification development for the BeyondCXAnalytics metrics pipeline and
readiness scorer.  Python floats are modelled by `PyF` (finite rationals plus
explicit `nan` / `inf` / `ninf` markers); tables are lists of typed rows;
`None` / missing JSON fields are modelled by `Option`.
-/

/-- Model of a Python float value: a finite rational or one of the three
IEEE special values that the source code manipulates explicitly. -/
inductive PyF where
  | nan : PyF
  | inf : PyF
  | ninf : PyF
  | num : ℚ → PyF
deriving DecidableEq, Repr

/-- IEEE-style strict comparison: any comparison against `nan` is false. -/
def PyF.lt : PyF → PyF → Bool
  | .nan, _ => false
  | _, .nan => false
  | .ninf, .ninf => false
  | .ninf, _ => true
  | _, .ninf => false
  | .inf, _ => false
  | _, .inf => true
  | .num a, .num b => decide (a < b)

/-- IEEE-style non-strict comparison: false whenever `nan` is involved. -/
def PyF.le : PyF → PyF → Bool
  | .nan, _ => false
  | _, .nan => false
  | a, b => !(PyF.lt b a)

/-- IEEE addition on the modelled float domain. -/
def PyF.add : PyF → PyF → PyF
  | .nan, _ => .nan
  | _, .nan => .nan
  | .inf, .ninf => .nan
  | .ninf, .inf => .nan
  | .inf, _ => .inf
  | _, .inf => .inf
  | .ninf, _ => .ninf
  | _, .ninf => .ninf
  | .num a, .num b => .num (a + b)

/-- Negation. -/
def PyF.neg : PyF → PyF
  | .nan => .nan
  | .inf => .ninf
  | .ninf => .inf
  | .num a => .num (-a)

/-- Subtraction, as `a + (-b)`. -/
def PyF.sub (a b : PyF) : PyF := PyF.add a (PyF.neg b)

/-- Division of a modelled float by a positive rational constant (the only
divisions the scorers perform are by the positive literals 2, 5 and list
lengths). -/
def PyF.divPos (x : PyF) (c : ℚ) : PyF :=
  match x with
  | .nan => .nan
  | .inf => .inf
  | .ninf => .ninf
  | .num a => .num (a / c)

/-- Multiplication of a modelled float by a positive rational constant. -/
def PyF.mulPos (x : PyF) (c : ℚ) : PyF :=
  match x with
  | .nan => .nan
  | .inf => .inf
  | .ninf => .ninf
  | .num a => .num (a * c)

/-- Embedding of `_is_nan` from `agentic_score.py`, on the modelled scalar domain
(`none` models Python `None`, which `_is_nan` also reports as missing). -/
def py_is_nan : Option PyF → Bool
  | none => true
  | some .nan => true
  | some _ => false

/-- CPython `round` to an integer: round-half-to-even. -/
def pyRoundInt (q : ℚ) : ℤ :=
  let f := ⌊q⌋
  let r := q - (f : ℚ)
  if r < 1/2 then f
  else if 1/2 < r then f + 1
  else if f % 2 = 0 then f else f + 1

/-- CPython `round(x, nd)` for finite values. -/
def pyRoundQ (nd : ℕ) (q : ℚ) : ℚ :=
  (pyRoundInt (q * (10 ^ nd : ℕ))) / ((10 ^ nd : ℕ) : ℚ)

/-- CPython `round(x, nd)` on the modelled float domain: `nan`/`inf`
pass through. -/
def pyRound (nd : ℕ) : PyF → PyF
  | .nan => .nan
  | .inf => .inf
  | .ninf => .ninf
  | .num q => .num (pyRoundQ nd q)

/-- CPython `min(a, b)`: returns `b` exactly when `b < a`. -/
def pyMin (a b : PyF) : PyF := if PyF.lt b a then b else a

/-- CPython `max(a, b)`: returns `b` exactly when `a < b`. -/
def pyMax (a b : PyF) : PyF := if PyF.lt a b then b else a

/-- Embedding of `_clamp(value, lo, hi) = max(lo, min(hi, value))` from `agentic_score.py`. -/
def pyClamp (value lo hi : PyF) : PyF := pyMax lo (pyMin hi value)

/-- Embedding of `_safe_mean` from `agentic_score.py`: drop `nan` entries (our list
elements are never `None`), return `none` when nothing is left, otherwise
sum in list order and divide by the count. -/
def safe_mean (values : List PyF) : Option PyF :=
  let nums := values.filter (fun v => v ≠ PyF.nan)
  if nums = [] then none
  else some (PyF.divPos (nums.foldl PyF.add (.num 0)) (nums.length : ℚ))

/-- CPython `max(list)` over a non-empty list of floats: keep the current
maximum, replace it when a later element compares strictly greater. -/
def pyListMax (h : PyF) (t : List PyF) : PyF :=
  t.foldl (fun cur x => if PyF.lt cur x then x else cur) h

/-- Sub-score record produced by every scoring function of
`agentic_score.py` (the `details` payload is not modelled; no claim
mentions it). -/
structure SubScore where
  score : Option ℚ
  computed : Bool
  reason : String
deriving DecidableEq, Repr

/-- Embedding of `score_repetitividad` from `agentic_score.py`.  The argument is the
normalized `volume_by_skill` sequence (`None` or a list of floats). -/
def score_repetitividad (volume_by_skill : Option (List PyF)) : SubScore :=
  match volume_by_skill with
  | none => { score := none, computed := false, reason := "sin_datos_volumen" }
  | some [] => { score := none, computed := false, reason := "sin_datos_volumen" }
  | some vs =>
    match safe_mean vs with
    | none => { score := none, computed := false, reason := "volumen_no_numerico" }
    | some avg =>
      if PyF.lt (.num 80) avg then
        { score := some 10, computed := true, reason := "alto_volumen" }
      else if PyF.le (.num 40) avg then
        { score := some 5, computed := true, reason := "volumen_medio" }
      else
        { score := some 0, computed := true, reason := "volumen_bajo" }

/-- Embedding of `score_predictibilidad` from `agentic_score.py`. -/
def score_predictibilidad (ahtRatioArg escalationArg : Option PyF) : SubScore :=
  if ahtRatioArg = none ∧ escalationArg = none then
    { score := none, computed := false, reason := "sin_datos" }
  else
    let r : Option PyF := if py_is_nan ahtRatioArg then none else ahtRatioArg
    let e : Option PyF := if py_is_nan escalationArg then none else escalationArg
    match r, e with
    | none, none => { score := none, computed := false, reason := "sin_datos" }
    | some rv, some ev =>
      if PyF.lt rv (.num (3/2)) ∧ PyF.lt ev (.num 10) then
        { score := some 10, computed := true, reason := "alta_predictibilidad" }
      else if (PyF.le (.num (3/2)) rv ∧ PyF.le rv (.num 2))
          ∨ (PyF.le (.num 10) ev ∧ PyF.le ev (.num 20)) then
        { score := some 5, computed := true, reason := "predictibilidad_media" }
      else if PyF.lt (.num 2) rv ∧ PyF.lt (.num 20) ev then
        { score := some 0, computed := true, reason := "baja_predictibilidad" }
      else
        { score := some 3, computed := true, reason := "caso_intermedio" }
    | _, _ => { score := some 3, computed := true, reason := "datos_parciales" }

/-- Embedding of `score_estructuracion` from `agentic_score.py`.  The argument is the
normalized `channel_distribution_pct` sequence. -/
def score_estructuracion (channel_distribution_pct : Option (List PyF)) : SubScore :=
  match channel_distribution_pct with
  | none => { score := none, computed := false, reason := "sin_datos_canal" }
  | some [] => { score := none, computed := false, reason := "sin_datos_canal" }
  | some vs =>
    match vs.filter (fun v => v ≠ PyF.nan) with
    | [] => { score := none, computed := false, reason := "canales_no_numericos" }
    | h :: t =>
      let max_share := pyListMax h t
      if PyF.lt (.num 60) max_share then
        { score := some 10, computed := true, reason := "alta_proporcion_texto" }
      else if PyF.le (.num 30) max_share then
        { score := some 5, computed := true, reason := "proporcion_texto_media" }
      else
        { score := some 0, computed := true, reason := "baja_proporcion_texto" }

/-- Extract the clamped rational value of a `pyClamp 0 10` application;
the clamp of a non-`nan` float always is a finite rational in `[0, 10]`
(proved below), so the scorer stores it as the score. -/
def pyClampQ (v : PyF) : ℚ :=
  match pyClamp v (.num 0) (.num 10) with
  | .num q => q
  | _ => 0

/-- Embedding of `score_complejidad` from `agentic_score.py`. -/
def score_complejidad (ahtRatioArg escalationArg : Option PyF) : SubScore :=
  let r : Option PyF := if py_is_nan ahtRatioArg then none else ahtRatioArg
  let e : Option PyF := if py_is_nan escalationArg then none else escalationArg
  match r, e with
  | none, none => { score := none, computed := false, reason := "sin_datos" }
  | r, e =>
    let base : PyF :=
      match r with
      | none => .num 5
      | some rv => pyClamp (PyF.mulPos (PyF.divPos (PyF.sub (.num 3) rv) 2) 10) (.num 0) (.num 10)
    let adj : PyF :=
      match e with
      | none => .num 0
      | some ev => PyF.neg (PyF.divPos ev 5)
    { score := some (pyClampQ (PyF.add base adj)),
      computed := true, reason := "complejidad_inversa" }

/-- Embedding of `score_estabilidad` from `agentic_score.py`. -/
def score_estabilidad (peakOffpeakArg : Option PyF) : SubScore :=
  if py_is_nan peakOffpeakArg then
    { score := none, computed := false, reason := "sin_datos_peak_offpeak" }
  else
    match peakOffpeakArg with
    | none => { score := none, computed := false, reason := "sin_datos_peak_offpeak" }
    | some rv =>
      if PyF.lt rv (.num 3) then
        { score := some 10, computed := true, reason := "muy_estable" }
      else if PyF.lt rv (.num 5) then
        { score := some 7, computed := true, reason := "estable_moderado" }
      else if PyF.lt rv (.num 7) then
        { score := some 3, computed := true, reason := "pico_pronunciado" }
      else
        { score := some 0, computed := true, reason := "muy_inestable" }

/-- Embedding of `score_roi` from `agentic_score.py`. -/
def score_roi (annual_savings : Option PyF) : SubScore :=
  if py_is_nan annual_savings then
    { score := none, computed := false, reason := "sin_datos_ahorro" }
  else
    match annual_savings with
    | none => { score := none, computed := false, reason := "sin_datos_ahorro" }
    | some sv =>
      if PyF.lt (.num 100000) sv then
        { score := some 10, computed := true, reason := "roi_alto" }
      else if PyF.le (.num 10000) sv then
        { score := some 5, computed := true, reason := "roi_medio" }
      else
        { score := some 0, computed := true, reason := "roi_bajo" }

/-- Embedding of `classify_agentic_score` from `agentic_score.py` (label only; the
emoji and prose description are not modelled). -/
def classify_agentic_score (score : Option ℚ) : String :=
  match score with
  | none => "NO_DATA"
  | some s =>
    if 8 ≤ s then "AUTOMATE"
    else if 5 ≤ s then "ASSIST"
    else if 3 ≤ s then "AUGMENT"
    else "HUMAN_ONLY"

/-- Embedding of `_normalize_numeric_sequence` from `agentic_score.py`, on the
modelled domain where a sequence field is already a list of floats (both the
old plain-list format and the new `{labels, values}` format carry the same
numeric list): an absent field stays absent, and an empty list becomes
`None` (`return out or None`). -/
def normalize_numeric_sequence (field : Option (List PyF)) : Option (List PyF) :=
  match field with
  | none => none
  | some l => if l.isEmpty then none else some l

/-- The scalar and sequence fields that `AgenticScorer.compute_from_data`
extracts from the result tree (`data`): absent keys and non-dict parents
yield `none`, exactly like `_get_nested` / `dict.get`. -/
structure ResultsData where
  volume_by_skill : Option (List PyF)
  channel_distribution_pct : Option (List PyF)
  peakOffpeakField : Option PyF
  ahtP90P50Field : Option PyF
  escalationField : Option PyF
  annualSavingsField : Option PyF

/-- Base weights of `AgenticScorer.__init__`, in dict insertion order. -/
def base_weights : List (String × ℚ) :=
  [("repetitividad", 25/100),
   ("predictibilidad", 20/100),
   ("estructuracion", 15/100),
   ("complejidad", 15/100),
   ("estabilidad", 10/100),
   ("roi", 15/100)]

/-- Association-list lookup, modelling Python `dict` access by key. -/
def lookupA {α : Type} (l : List (String × α)) (k : String) : Option α :=
  (l.find? (fun p => p.1 = k)).map (fun p => p.2)

/-- The six sub-scores computed by `compute_from_data`, keyed as in the
`sub_scores` dict (insertion order preserved). -/
def sub_scores_list (d : ResultsData) : List (String × SubScore) :=
  [("repetitividad", score_repetitividad (normalize_numeric_sequence d.volume_by_skill)),
   ("predictibilidad", score_predictibilidad d.ahtP90P50Field d.escalationField),
   ("estructuracion", score_estructuracion (normalize_numeric_sequence d.channel_distribution_pct)),
   ("complejidad", score_complejidad d.ahtP90P50Field d.escalationField),
   ("estabilidad", score_estabilidad d.peakOffpeakField),
   ("roi", score_roi d.annualSavingsField)]

/-- Is the named sub-score computed?  (`dim.get("computed")` on the
`sub_scores` dict; a missing name counts as not computed.) -/
def subComputed (subs : List (String × SubScore)) (name : String) : Bool :=
  match lookupA subs name with
  | some s => s.computed
  | none => false

/-- Effective weights: the base weights restricted to the sub-scores with
`computed = True` (the first loop of the renormalization block). -/
def effective_weights (subs : List (String × SubScore)) : List (String × ℚ) :=
  base_weights.filter (fun p => subComputed subs p.1)

/-- Sum of the effective weights (`total_effective_weight`). -/
def total_effective_weight (subs : List (String × SubScore)) : ℚ :=
  ((effective_weights subs).map (fun p => p.2)).sum

/-- Normalized weights: each effective weight divided by their sum when the
sum is positive, otherwise the empty dict. -/
def normalized_weights (subs : List (String × SubScore)) : List (String × ℚ) :=
  if 0 < total_effective_weight subs then
    (effective_weights subs).map (fun p => (p.1, p.2 / total_effective_weight subs))
  else []

/-- The accumulator loop of the final-score block:
`acc += (dim.get("score") or 0.0) * normalized_weights.get(name, 0.0)`
over the computed sub-scores. -/
def scoreAcc (subs : List (String × SubScore)) : ℚ :=
  (subs.map (fun p =>
    if p.2.computed then
      (p.2.score.getD 0) * ((lookupA (normalized_weights subs) p.1).getD 0)
    else 0)).sum

/-- Final score: `None` when no weights survive renormalization, otherwise
the accumulated weighted sum rounded to 2 decimals. -/
def final_score_of (subs : List (String × SubScore)) : Option ℚ :=
  if (normalized_weights subs).isEmpty then none
  else some (pyRoundQ 2 (scoreAcc subs))

/-- The composite result assembled by `compute_from_data` (the fields the
claims are about). -/
structure CompositeResult where
  final_score : Option ℚ
  classification : String
  normalizedWeightsOut : List (String × ℚ)
  subScoresOut : List (String × SubScore)

/-- Embedding of `AgenticScorer.compute_from_data` from `agentic_score.py`. -/
def compute_from_data (d : ResultsData) : CompositeResult :=
  let subs := sub_scores_list d
  { final_score := final_score_of subs,
    classification := classify_agentic_score (final_score_of subs),
    normalizedWeightsOut := normalized_weights subs,
    subScoresOut := subs }

/-- Model of CPython `str.strip()` (`pandas .str.strip()`): drop leading
and trailing whitespace, structurally over the character list. -/
def pyStrip (s : String) : String :=
  ⟨((s.data.dropWhile Char.isWhitespace).reverse.dropWhile Char.isWhitespace).reverse⟩

/-- The single component of `datetime_start` that the embedded volumetry
metrics consult (`df["datetime_start"].dt.hour`). -/
structure PyTimestamp where
  hour : ℕ
deriving DecidableEq, Repr

/-- One row of the input table, with the columns `VolumetriaMetrics`
requires (`interaction_id`, `datetime_start`, `queue_skill`, `channel`);
`none` models a value that `pd.to_datetime(..., errors="coerce")` turned
into `NaT`. -/
structure VolRow where
  interaction_id : String
  datetime_start : Option PyTimestamp
  queue_skill : String
  channel : String
deriving DecidableEq, Repr

/-- Embedding of `VolumetriaMetrics._prepare_data`: string normalization of
`queue_skill` and `channel` (`astype(str).str.strip()`). -/
def vol_prepare (rows : List VolRow) : List VolRow :=
  rows.map (fun r => { r with queue_skill := pyStrip r.queue_skill, channel := pyStrip r.channel })

/-- Grouped unique-interaction counts: for each distinct key value, the
number of distinct `interaction_id` values among the rows with that key
(`df.groupby(key)["interaction_id"].nunique()`). -/
def grouped_nunique (rows : List VolRow) (key : VolRow → String) : List (String × ℕ) :=
  ((rows.map key).dedup).map
    (fun c => (c, ((rows.filter (fun r => decide (key r = c))).map (fun r => r.interaction_id)).dedup.length))

/-- Embedding of `VolumetriaMetrics.volume_by_channel` (on the prepared
table; the trailing `sort_values(ascending=False)` reorders entries by
descending count). -/
def volume_by_channel (rows : List VolRow) : List (String × ℕ) :=
  (grouped_nunique (vol_prepare rows) (fun r => r.channel)).mergeSort
    (fun a b => decide (b.2 ≤ a.2))

/-- Embedding of `VolumetriaMetrics.volume_by_skill`. -/
def volume_by_skill_m (rows : List VolRow) : List (String × ℕ) :=
  (grouped_nunique (vol_prepare rows) (fun r => r.queue_skill)).mergeSort
    (fun a b => decide (b.2 ≤ a.2))

/-- Sum of a grouped volume series (what `Σ volume_by_channel` denotes). -/
def seriesSum (l : List (String × ℕ)) : ℕ := (l.map (fun p => p.2)).sum

/-- Number of distinct `interaction_id` values in the table
(`count(distinct interaction_id)`). -/
def distinct_interaction_count (rows : List VolRow) : ℕ :=
  ((rows.map (fun r => r.interaction_id)).dedup).length

/-- The peak-hour test of `VolumetriaMetrics.peak_offpeak_ratio`:
`hour ∈ range(10, 20)`. -/
def volIsPeak (r : VolRow) : Bool :=
  match r.datetime_start with
  | some ts => decide (10 ≤ ts.hour ∧ ts.hour ≤ 19)
  | none => false

/-- Peak volume: unique interactions among rows (with a valid timestamp)
whose hour lies in the peak window 10–19 (`df.loc[is_peak, "interaction_id"].nunique()`). -/
def peak_vol_of (rows : List VolRow) : ℕ :=
  ((((vol_prepare rows).filter (fun r => r.datetime_start.isSome)).filter volIsPeak).map
    (fun r => r.interaction_id)).dedup.length

/-- Off-peak volume: unique interactions among rows (with a valid
timestamp) outside the peak window. -/
def off_vol_of (rows : List VolRow) : ℕ :=
  ((((vol_prepare rows).filter (fun r => r.datetime_start.isSome)).filter
    (fun r => !volIsPeak r)).map (fun r => r.interaction_id)).dedup.length

/-- Embedding of `VolumetriaMetrics.peak_offpeak_ratio`: rows without a
valid timestamp are dropped; peak hours are 10–19 inclusive; both volumes
are unique-interaction counts; division by a zero off-peak volume yields
`inf` when the peak volume is positive and `nan` otherwise. -/
def peak_offpeak_ratio_fn (rows : List VolRow) : PyF :=
  if ((vol_prepare rows).filter (fun r => r.datetime_start.isSome)).isEmpty then PyF.nan
  else if off_vol_of rows = 0 then
    (if 0 < peak_vol_of rows then PyF.inf else PyF.nan)
  else PyF.num (pyRoundQ 3 ((peak_vol_of rows : ℚ) / (off_vol_of rows : ℚ)))

/-- One row of the input table with all columns `OperationalPerformanceMetrics`
reads for FCR / escalation / abandonment / recurrence.  Optional columns have
a per-table presence flag in `OpTable`; the row value of an absent column is
never consulted.  Flags are modelled after the `_prepare_data` boolean
normalization; `datetime_start` is a timestamp in days (`none` = `NaT`). -/
structure OpRow where
  interaction_id : String
  datetime_start : Option ℚ
  queue_skill : String
  channel : String
  transfer_flag : Bool
  is_resolved : Bool
  fcr_real_flag : Bool
  is_abandoned : Bool
  abandoned_flag : Bool
  abandoned : Bool
  customer_id : String
  caller_id : String
deriving DecidableEq, Repr

/-- A table for the operational-performance dimension: the rows plus the
set of optional columns that exist in the dataframe. -/
structure OpTable where
  rows : List OpRow
  has_fcr_real_flag : Bool
  has_is_resolved : Bool
  has_is_abandoned : Bool
  has_abandoned_flag : Bool
  has_abandoned : Bool
  has_customer_id : Bool
  has_caller_id : Bool
deriving DecidableEq, Repr

/-- String normalization of `OperationalPerformanceMetrics._prepare_data`
(`queue_skill` / `channel` stripped). -/
def op_prepare (rows : List OpRow) : List OpRow :=
  rows.map (fun r => { r with queue_skill := pyStrip r.queue_skill, channel := pyStrip r.channel })

/-- The `customer_id` column created by `_prepare_data`: `customer_id` if
that column exists, else `caller_id`, else `None` for every row. -/
def customerOf (t : OpTable) (r : OpRow) : Option String :=
  if t.has_customer_id then some r.customer_id
  else if t.has_caller_id then some r.caller_id
  else none

/-- Embedding of `OperationalPerformanceMetrics.escalation_rate`:
percentage of rows with `transfer_flag`, rounded to 2 decimals; `nan` on an
empty table. -/
def escalation_rate (t : OpTable) : PyF :=
  let df := op_prepare t.rows
  if df.length = 0 then PyF.nan
  else PyF.num (pyRoundQ 2
    (((df.filter (fun r => r.transfer_flag)).length : ℚ) / (df.length : ℚ) * 100))

/-- Embedding of `OperationalPerformanceMetrics.fcr_rate`:
priority 1 uses the `fcr_real_flag` column when it exists; priority 2 falls
back to `100 - escalation_rate`; both results are rounded to 2 decimals and
clamped into `[0, 100]`; `nan` on an empty table. -/
def fcr_rate (t : OpTable) : PyF :=
  let df := op_prepare t.rows
  if df.length = 0 then PyF.nan
  else if t.has_fcr_real_flag then
    let fcr := ((df.filter (fun r => r.fcr_real_flag)).length : ℚ) / (df.length : ℚ) * 100
    pyMax (.num 0) (pyMin (.num 100) (.num (pyRoundQ 2 fcr)))
  else
    match escalation_rate t with
    | .nan => PyF.nan
    | esc => pyMax (.num 0) (pyMin (.num 100) (pyRound 2 (PyF.sub (.num 100) esc)))

/-- Embedding of `OperationalPerformanceMetrics.abandonment_rate`: probe the
columns `is_abandoned`, `abandoned_flag`, `abandoned` in that order; `nan`
when none exists or the table is empty. -/
def abandonment_rate (t : OpTable) : PyF :=
  let df := op_prepare t.rows
  if df.length = 0 then PyF.nan
  else
    let sel : Option (OpRow → Bool) :=
      if t.has_is_abandoned then some (fun r => r.is_abandoned)
      else if t.has_abandoned_flag then some (fun r => r.abandoned_flag)
      else if t.has_abandoned then some (fun r => r.abandoned)
      else none
    match sel with
    | none => PyF.nan
    | some p => PyF.num (pyRoundQ 2
        (((df.filter p).length : ℚ) / (df.length : ℚ) * 100))

/-- Consecutive-gap test on a list of timestamps: does some adjacent pair of
the (already sorted) list lie less than `d` days apart? -/
def consecGapLt (l : List ℚ) (d : ℚ) : Bool :=
  (l.zip l.tail).any (fun p => decide (p.2 - p.1 < d))

/-- The sorted timestamps of one `(customer, skill)` group. -/
def groupTimes (t : OpTable) (rows : List OpRow) (c s : String) : List ℚ :=
  ((rows.filter (fun r =>
      decide (customerOf t r = some c) && decide (r.queue_skill = s))).filterMap
        (fun r => r.datetime_start)).mergeSort (fun a b => decide (a ≤ b))

/-- Embedding of `OperationalPerformanceMetrics.recurrence_rate_7d`: keep
rows with a valid timestamp and a customer identifier; a customer is
recurrent when, for some skill, two of their consecutive contacts on that
skill (sorted by time) are less than 7 days apart; the rate is recurrent
customers over all distinct customers, in percent, rounded to 2 decimals. -/
def recurrence_rate_7d (t : OpTable) : PyF :=
  let df0 := (op_prepare t.rows).filter (fun r => r.datetime_start.isSome)
  let df := df0.filter (fun r => (customerOf t r).isSome)
  if df.isEmpty then PyF.nan
  else
    let custs := (df.filterMap (customerOf t)).dedup
    let skills := (df.map (fun r => r.queue_skill)).dedup
    let recurrent : String → Bool := fun c =>
      skills.any (fun s => consecGapLt (groupTimes t df c s) 7)
    let total := custs.length
    if total = 0 then PyF.nan
    else PyF.num (pyRoundQ 2
      (((custs.filter recurrent).length : ℚ) / (total : ℚ) * 100))

/-- Modelled from the words of the claim (C3): the asserted three-tier FCR
fallback — an explicit resolution flag column (`is_resolved`) is used when
present, else an explicit FCR flag column, else `100 - escalation_rate`
clamped to `[0, 100]`; NaN only when no tier can produce a value. -/
def fcr_rate_spec_three_tier (t : OpTable) : PyF :=
  let df := op_prepare t.rows
  if df.length = 0 then PyF.nan
  else if t.has_is_resolved then
    PyF.num (pyRoundQ 2 (((df.filter (fun r => r.is_resolved)).length : ℚ) / (df.length : ℚ) * 100))
  else if t.has_fcr_real_flag then
    PyF.num (pyRoundQ 2 (((df.filter (fun r => r.fcr_real_flag)).length : ℚ) / (df.length : ℚ) * 100))
  else
    match escalation_rate t with
    | .nan => PyF.nan
    | esc => pyMax (.num 0) (pyMin (.num 100) (pyRound 2 (PyF.sub (.num 100) esc)))

/-- Modelled from the amended claim (C3): the two-tier FCR fallback the
code actually implements — the explicit FCR flag column when present, else
`100 - escalation_rate`; the result is rounded to 2 decimals and clamped
to `[0, 100]`; NaN exactly when the table is empty. -/
def fcr_rate_spec_two_tier (t : OpTable) : PyF :=
  let df := op_prepare t.rows
  if df.length = 0 then PyF.nan
  else if t.has_fcr_real_flag then
    pyMax (.num 0) (pyMin (.num 100)
      (.num (pyRoundQ 2 (((df.filter (fun r => r.fcr_real_flag)).length : ℚ) / (df.length : ℚ) * 100))))
  else
    match escalation_rate t with
    | .nan => PyF.nan
    | esc => pyMax (.num 0) (pyMin (.num 100) (pyRound 2 (PyF.sub (.num 100) esc)))

/-- JSON-compatible value: what ends up in the serialized result tree.
Numbers carry a modelled float, so a `NaN` / `Infinity` can live inside a
JSON tree exactly as it can in a Python structure handed to `json.dump`. -/
inductive JVal where
  | jnull : JVal
  | jbool : Bool → JVal
  | jnum : PyF → JVal
  | jstr : String → JVal
  | jarr : List JVal → JVal
  | jobj : List (String × JVal) → JVal
deriving Repr

/-- Python object as produced by the dimension metrics, before
`_serialize_for_json`: scalars, numpy scalars (collapsed into their values),
pandas Series (a list of floats), DataFrames (records of float cells),
lists and dicts. -/
inductive PyObj where
  | pNone : PyObj
  | pBool : Bool → PyObj
  | pInt : ℤ → PyObj
  | pFloat : PyF → PyObj
  | pStr : String → PyObj
  | pSeries : List PyF → PyObj
  | pFrame : List (List (String × PyF)) → PyObj
  | pList : List PyObj → PyObj
  | pDict : List (String × PyObj) → PyObj
deriving Repr

mutual

/-- Embedding of `_serialize_for_json` from `pipeline.py`: scalars pass
through unchanged (floats included — no NaN/Infinity handling), numpy
floats become plain floats, DataFrames become row-dicts, Series become
lists, and lists/dicts are serialized recursively (list and dict recursion
through the two mutual helpers). -/
def serialize_for_json : PyObj → JVal
  | .pNone => .jnull
  | .pBool b => .jbool b
  | .pInt n => .jnum (.num n)
  | .pFloat x => .jnum x
  | .pStr s => .jstr s
  | .pSeries l => .jarr (l.map (fun x => .jnum x))
  | .pFrame rows => .jarr (rows.map (fun row => .jobj (row.map (fun p => (p.1, JVal.jnum p.2)))))
  | .pList l => .jarr (serializeObjList l)
  | .pDict l => .jobj (serializeObjDict l)

/-- Serialization of the elements of a Python list. -/
def serializeObjList : List PyObj → List JVal
  | [] => []
  | x :: xs => serialize_for_json x :: serializeObjList xs

/-- Serialization of the entries of a Python dict. -/
def serializeObjDict : List (String × PyObj) → List (String × JVal)
  | [] => []
  | (k, v) :: ps => (k, serialize_for_json v) :: serializeObjDict ps

end

mutual

/-- Does a serialized JSON tree contain a non-finite number (`NaN`,
`Infinity`, `-Infinity`) anywhere? -/
def containsNonFinite : JVal → Bool
  | .jnull => false
  | .jbool _ => false
  | .jstr _ => false
  | .jnum .nan => true
  | .jnum .inf => true
  | .jnum .ninf => true
  | .jnum (.num _) => false
  | .jarr l => anyNonFiniteList l
  | .jobj l => anyNonFiniteDict l

/-- Non-finite check over the elements of a JSON array. -/
def anyNonFiniteList : List JVal → Bool
  | [] => false
  | x :: xs => containsNonFinite x || anyNonFiniteList xs

/-- Non-finite check over the entries of a JSON object. -/
def anyNonFiniteDict : List (String × JVal) → Bool
  | [] => false
  | (_, v) :: ps => containsNonFinite v || anyNonFiniteDict ps

end

/-- The token that `json.dump` with its default `allow_nan=True` (as called
by `LocalResultsSink.write_json`) writes for a float scalar: the literals
`NaN`, `Infinity` and `-Infinity` for the non-finite values — never `null`.
The decimal rendering of finite floats is abstracted by `toString`. -/
def jsonFloatToken : PyF → String
  | .nan => "NaN"
  | .inf => "Infinity"
  | .ninf => "-Infinity"
  | .num q => toString q

mutual

/-- Embedding of `sanitize_for_json` from `beyond_api/api/analysis.py`
(the HTTP layer): floats that are NaN or infinite become `None`/null,
dicts and lists are walked recursively, everything else passes through. -/
def sanitize_for_json : JVal → JVal
  | .jnum .nan => .jnull
  | .jnum .inf => .jnull
  | .jnum .ninf => .jnull
  | .jnum (.num q) => .jnum (.num q)
  | .jnull => .jnull
  | .jbool b => .jbool b
  | .jstr s => .jstr s
  | .jarr l => .jarr (sanitizeList l)
  | .jobj l => .jobj (sanitizeDict l)

/-- Sanitization of the elements of a JSON array. -/
def sanitizeList : List JVal → List JVal
  | [] => []
  | x :: xs => sanitize_for_json x :: sanitizeList xs

/-- Sanitization of the entries of a JSON object. -/
def sanitizeDict : List (String × JVal) → List (String × JVal)
  | [] => []
  | (k, v) :: ps => (k, sanitize_for_json v) :: sanitizeDict ps

end

/-- A post-run callback as `BeyondMetricsPipeline.run` sees it: it mutates
the result tree in place and may raise; the pair holds the tree as left by
the call (mutations before a failure included) and the raised exception,
if any. -/
def Callback (τ ε : Type) : Type := τ → τ × Option ε

/-- The callback loop of `BeyondMetricsPipeline.run` step 5: each callback
runs inside `try/except Exception`, so a raised exception is recorded
(logged) and the loop moves on to the next callback with the tree as the
failed callback left it. Returns the final tree, the number of callbacks
invoked, and the logged exceptions. -/
def run_callbacks {τ ε : Type} (t : τ) : List (Callback τ ε) → τ × ℕ × List ε
  | [] => (t, 0, [])
  | cb :: rest =>
    let r := cb t
    let rec' := run_callbacks r.1 rest
    (rec'.1, rec'.2.1 + 1, match r.2 with
      | some e => e :: rec'.2.2
      | none => rec'.2.2)

/-- Outcome of the tail of `BeyondMetricsPipeline.run`: the JSON artifacts
written through the sink, how many post-run callbacks were invoked, the
exceptions caught and logged, and the tree the method returns. -/
structure RunOutcome (τ ε : Type) where
  written : List (String × τ)
  invoked : ℕ
  logged : List ε
  returned : τ

/-- Embedding of steps 4 and 5 of `BeyondMetricsPipeline.run`: after the
dimension loop produced `all_results`, the tree is persisted as
`{run_base}/results.json` (when `write_results_json` is set), and then
every post-run callback is invoked under `try/except`. -/
def pipeline_run_tail {τ ε : Type} (all_results : τ) (run_base : String)
    (write_results_json : Bool) (cbs : List (Callback τ ε)) : RunOutcome τ ε :=
  let written := if write_results_json then [(run_base ++ "/results.json", all_results)] else []
  let r := run_callbacks all_results cbs
  { written := written, invoked := r.2.1, logged := r.2.2, returned := r.1 }

/-- The sub-score record invariant of the data model: a non-computed
dimension has a null score, a computed one has a numeric score in the
declared `[0, 10]` range. -/
def SubInv (s : SubScore) : Prop :=
  (s.computed = false → s.score = none) ∧
  (s.computed = true → ∃ q, s.score = some q ∧ 0 ≤ q ∧ q ≤ 10)

lemma subInv_false (r : String) : SubInv ⟨none, false, r⟩ :=
  ⟨fun _ => rfl, fun h => by simp at h⟩

lemma subInv_true (q : ℚ) (r : String) (h0 : 0 ≤ q) (h1 : q ≤ 10) :
    SubInv ⟨some q, true, r⟩ :=
  ⟨fun h => by simp at h, fun _ => ⟨q, rfl, h0, h1⟩⟩

lemma pyClampQ_bounds (v : PyF) : 0 ≤ pyClampQ v ∧ pyClampQ v ≤ 10 := by
  rcases v with _ | _ | _ | q
  · exact ⟨by decide, by decide⟩
  · exact ⟨by decide, by decide⟩
  · exact ⟨by decide, by decide⟩
  · simp only [pyClampQ, pyClamp, pyMin, pyMax, PyF.lt]
    split_ifs with h1 h2 <;>
      simp_all only [decide_eq_true_eq] <;>
      constructor <;> linarith

lemma subInv_score_repetitividad (v : Option (List PyF)) :
    SubInv (score_repetitividad v) := by
  rcases v with _ | (_ | ⟨x, xs⟩)
  · exact subInv_false _
  · exact subInv_false _
  · rcases h : safe_mean (x :: xs) with _ | avg <;>
      simp only [score_repetitividad, h]
    · exact subInv_false _
    · split_ifs
      · exact subInv_true 10 _ (by norm_num) (by norm_num)
      · exact subInv_true 5 _ (by norm_num) (by norm_num)
      · exact subInv_true 0 _ (by norm_num) (by norm_num)

lemma subInv_score_predictibilidad (r e : Option PyF) :
    SubInv (score_predictibilidad r e) := by
  unfold score_predictibilidad
  rcases r with _ | x <;> rcases e with _ | y <;> (try cases x) <;> (try cases y) <;>
    simp [py_is_nan, PyF.lt, PyF.le]
  all_goals
    first
      | exact subInv_false _
      | exact subInv_true 3 _ (by norm_num) (by norm_num)
      | ((try split_ifs) <;>
          first
            | exact subInv_false _
            | exact subInv_true 10 _ (by norm_num) (by norm_num)
            | exact subInv_true 5 _ (by norm_num) (by norm_num)
            | exact subInv_true 0 _ (by norm_num) (by norm_num)
            | exact subInv_true 3 _ (by norm_num) (by norm_num))

lemma subInv_score_estructuracion (v : Option (List PyF)) :
    SubInv (score_estructuracion v) := by
  rcases v with _ | (_ | ⟨x, xs⟩)
  · exact subInv_false _
  · exact subInv_false _
  · rcases h : (x :: xs).filter (fun v => v ≠ PyF.nan) with _ | ⟨y, ys⟩ <;>
      simp only [score_estructuracion, h]
    · exact subInv_false _
    · split_ifs
      · exact subInv_true 10 _ (by norm_num) (by norm_num)
      · exact subInv_true 5 _ (by norm_num) (by norm_num)
      · exact subInv_true 0 _ (by norm_num) (by norm_num)

lemma subInv_score_complejidad (r e : Option PyF) :
    SubInv (score_complejidad r e) := by
  unfold score_complejidad
  rcases r with _ | x <;> rcases e with _ | y <;> (try cases x) <;> (try cases y) <;>
    simp [py_is_nan]
  all_goals
    first
      | exact subInv_false _
      | exact subInv_true _ _ (pyClampQ_bounds _).1 (pyClampQ_bounds _).2

lemma subInv_score_estabilidad (p : Option PyF) :
    SubInv (score_estabilidad p) := by
  unfold score_estabilidad
  rcases p with _ | x <;> (try cases x) <;> simp [py_is_nan]
  all_goals
    first
      | exact subInv_false _
      | (split_ifs <;>
          first
            | exact subInv_false _
            | exact subInv_true 10 _ (by norm_num) (by norm_num)
            | exact subInv_true 7 _ (by norm_num) (by norm_num)
            | exact subInv_true 3 _ (by norm_num) (by norm_num)
            | exact subInv_true 0 _ (by norm_num) (by norm_num))

lemma subInv_score_roi (a : Option PyF) : SubInv (score_roi a) := by
  unfold score_roi
  rcases a with _ | x <;> (try cases x) <;> simp [py_is_nan]
  all_goals
    first
      | exact subInv_false _
      | (split_ifs <;>
          first
            | exact subInv_false _
            | exact subInv_true 10 _ (by norm_num) (by norm_num)
            | exact subInv_true 5 _ (by norm_num) (by norm_num)
            | exact subInv_true 0 _ (by norm_num) (by norm_num))

/-- C5: for every input to each of the six sub-score functions
(repetitiveness, predictability, structuredness, complexity, stability,
ROI), the returned sub-score record satisfies: `computed = false` implies
the score is null, and `computed = true` implies the score is a numeric
value in the closed interval `[0, 10]`. -/
theorem c5_subscore_range_invariant :
    ∀ (v cd : Option (List PyF)) (r e p a : Option PyF),
      SubInv (score_repetitividad v) ∧ SubInv (score_predictibilidad r e) ∧
      SubInv (score_estructuracion cd) ∧ SubInv (score_complejidad r e) ∧
      SubInv (score_estabilidad p) ∧ SubInv (score_roi a) :=
  fun v cd r e p a =>
    ⟨subInv_score_repetitividad v, subInv_score_predictibilidad r e,
     subInv_score_estructuracion cd, subInv_score_complejidad r e,
     subInv_score_estabilidad p, subInv_score_roi a⟩

/-- C7: for every final-score value the classification is the four-tier
step function — `score ≥ 8` yields AUTOMATE, `5 ≤ score < 8` yields ASSIST,
`3 ≤ score < 5` yields AUGMENT, `score < 3` yields HUMAN_ONLY, and a null
score yields NO_DATA. -/
theorem c7_classification_step_fn :
    classify_agentic_score none = "NO_DATA" ∧
    ∀ q : ℚ,
      (8 ≤ q → classify_agentic_score (some q) = "AUTOMATE") ∧
      (5 ≤ q → q < 8 → classify_agentic_score (some q) = "ASSIST") ∧
      (3 ≤ q → q < 5 → classify_agentic_score (some q) = "AUGMENT") ∧
      (q < 3 → classify_agentic_score (some q) = "HUMAN_ONLY") := by
  refine ⟨rfl, fun q => ⟨?_, ?_, ?_, ?_⟩⟩
  · intro h
    show (if 8 ≤ q then "AUTOMATE" else if 5 ≤ q then "ASSIST"
          else if 3 ≤ q then "AUGMENT" else "HUMAN_ONLY") = "AUTOMATE"
    rw [if_pos h]
  · intro h1 h2
    show (if 8 ≤ q then "AUTOMATE" else if 5 ≤ q then "ASSIST"
          else if 3 ≤ q then "AUGMENT" else "HUMAN_ONLY") = "ASSIST"
    rw [if_neg (by linarith), if_pos h1]
  · intro h1 h2
    show (if 8 ≤ q then "AUTOMATE" else if 5 ≤ q then "ASSIST"
          else if 3 ≤ q then "AUGMENT" else "HUMAN_ONLY") = "AUGMENT"
    rw [if_neg (by linarith), if_neg (by linarith), if_pos h1]
  · intro h
    show (if 8 ≤ q then "AUTOMATE" else if 5 ≤ q then "ASSIST"
          else if 3 ≤ q then "AUGMENT" else "HUMAN_ONLY") = "HUMAN_ONLY"
    rw [if_neg (by linarith), if_neg (by linarith), if_neg (by linarith)]

theorem c7_classification_step_fn_witness :
    classify_agentic_score (some 9) = "AUTOMATE" ∧
    classify_agentic_score (some 6) = "ASSIST" ∧
    classify_agentic_score (some 4) = "AUGMENT" ∧
    classify_agentic_score (some 1) = "HUMAN_ONLY" ∧
    classify_agentic_score none = "NO_DATA" :=
  ⟨((c7_classification_step_fn.2 9).1 (by norm_num)),
   ((c7_classification_step_fn.2 6).2.1 (by norm_num) (by norm_num)),
   ((c7_classification_step_fn.2 4).2.2.1 (by norm_num) (by norm_num)),
   ((c7_classification_step_fn.2 1).2.2.2 (by norm_num)),
   c7_classification_step_fn.1⟩

/-- C6: for numeric AHT-ratio and escalation inputs the predictability
sub-score follows the threshold table — 10 when `ratio < 1.5` and
`esc < 10`; 5 when `1.5 ≤ ratio ≤ 2` or `10 ≤ esc ≤ 20`; 0 when
`ratio > 2` and `esc > 20`; 3 otherwise — always with `computed = true`;
with exactly one numeric input (the other `None` or NaN) the score is 3
with `computed = true`; and ratio `1.2` with escalation `5` scores 10. -/
theorem c6_predictability_thresholds :
    (∀ r e : ℚ,
      score_predictibilidad (some (.num r)) (some (.num e)) =
        { score := some (if r < 3/2 ∧ e < 10 then 10
                         else if (3/2 ≤ r ∧ r ≤ 2) ∨ (10 ≤ e ∧ e ≤ 20) then 5
                         else if 2 < r ∧ 20 < e then 0 else 3),
          computed := true,
          reason := if r < 3/2 ∧ e < 10 then "alta_predictibilidad"
                    else if (3/2 ≤ r ∧ r ≤ 2) ∨ (10 ≤ e ∧ e ≤ 20) then "predictibilidad_media"
                    else if 2 < r ∧ 20 < e then "baja_predictibilidad"
                    else "caso_intermedio" }) ∧
    (∀ r : ℚ, ∀ e : Option PyF, py_is_nan e = true →
      score_predictibilidad (some (.num r)) e =
        { score := some 3, computed := true, reason := "datos_parciales" }) ∧
    (∀ e : ℚ, ∀ r : Option PyF, py_is_nan r = true →
      score_predictibilidad r (some (.num e)) =
        { score := some 3, computed := true, reason := "datos_parciales" }) ∧
    score_predictibilidad (some (.num (12/10))) (some (.num 5)) =
      { score := some 10, computed := true, reason := "alta_predictibilidad" } := by
  refine ⟨?_, ?_, ?_,
    by norm_num [score_predictibilidad, py_is_nan, PyF.lt, PyF.le] <;> simp⟩
  · intro r e
    unfold score_predictibilidad
    simp [py_is_nan, PyF.lt, PyF.le]
    split_ifs <;> simp_all
  · intro r e he
    rcases e with _ | x
    · unfold score_predictibilidad
      simp [py_is_nan]
    · cases x <;> simp [py_is_nan] at he <;>
        (unfold score_predictibilidad; simp [py_is_nan])
  · intro e r hr
    rcases r with _ | x
    · unfold score_predictibilidad
      simp [py_is_nan]
    · cases x <;> simp [py_is_nan] at hr <;>
        (unfold score_predictibilidad; simp [py_is_nan])

theorem c6_predictability_thresholds_witness :
    score_predictibilidad (some (.num (12/10))) (some (.num 5)) =
      { score := some 10, computed := true, reason := "alta_predictibilidad" } ∧
    score_predictibilidad (some (.num (12/10))) (some PyF.nan) =
      { score := some 3, computed := true, reason := "datos_parciales" } :=
  ⟨c6_predictability_thresholds.2.2.2,
   c6_predictability_thresholds.2.1 (12/10) (some PyF.nan) (by decide)⟩

lemma run_callbacks_spec {τ ε : Type} (t : τ) (cbs : List (Callback τ ε)) :
    (run_callbacks t cbs).2.1 = cbs.length ∧
    (run_callbacks t cbs).1 = cbs.foldl (fun a cb => (cb a).1) t := by
  induction cbs generalizing t with
  | nil => exact ⟨rfl, rfl⟩
  | cons cb rest ih =>
    refine ⟨?_, ?_⟩ <;>
      simp only [run_callbacks, List.foldl_cons, List.length_cons] <;>
      first
        | rw [(ih (cb t).1).1]
        | rw [(ih (cb t).1).2]

/-- C9: for every pipeline run with post-run callbacks (modelled by the
tail of `BeyondMetricsPipeline.run` with `write_results_json = true`), a
raising callback is caught (the tail is a total function and its caught
exceptions are logged in `RunOutcome.logged`), the complete pre-callback
result tree has already been persisted as `results.json` before any
callback runs, every callback is invoked even when an earlier one raised,
and the returned tree is the fold of the callback mutations. -/
theorem c9_postrun_callback_isolation {τ ε : Type} (all_results : τ)
    (run_base : String) (cbs : List (Callback τ ε)) :
    (pipeline_run_tail all_results run_base true cbs).written
        = [(run_base ++ "/results.json", all_results)] ∧
    (pipeline_run_tail all_results run_base true cbs).invoked = cbs.length ∧
    (pipeline_run_tail all_results run_base true cbs).returned
        = cbs.foldl (fun a cb => (cb a).1) all_results :=
  ⟨rfl, (run_callbacks_spec all_results cbs).1, (run_callbacks_spec all_results cbs).2⟩

mutual

theorem sanitize_noNonFinite : ∀ v : JVal, containsNonFinite (sanitize_for_json v) = false
  | .jnull => rfl
  | .jbool _ => rfl
  | .jstr _ => rfl
  | .jnum .nan => rfl
  | .jnum .inf => rfl
  | .jnum .ninf => rfl
  | .jnum (.num _) => rfl
  | .jarr l => by
      simpa only [sanitize_for_json, containsNonFinite] using sanitizeList_noNonFinite l
  | .jobj l => by
      simpa only [sanitize_for_json, containsNonFinite] using sanitizeDict_noNonFinite l

theorem sanitizeList_noNonFinite : ∀ l : List JVal, anyNonFiniteList (sanitizeList l) = false
  | [] => rfl
  | x :: xs => by
      simp only [sanitizeList, anyNonFiniteList, Bool.or_eq_false_iff]
      exact ⟨sanitize_noNonFinite x, sanitizeList_noNonFinite xs⟩

theorem sanitizeDict_noNonFinite :
    ∀ l : List (String × JVal), anyNonFiniteDict (sanitizeDict l) = false
  | [] => rfl
  | (k, v) :: ps => by
      simp only [sanitizeDict, anyNonFiniteDict, Bool.or_eq_false_iff]
      exact ⟨sanitize_noNonFinite v, sanitizeDict_noNonFinite ps⟩

end

/-- A result tree holding the NaN that `monthly_seasonality_cv` returns on
fewer than two months of data — a value the pipeline serializes as-is. -/
def nanResultTree : PyObj :=
  .pDict [("volumetry", .pDict [("monthly_seasonality_cv", .pFloat .nan)])]

/-- C4 counterexample: the claim "every NaN and every Infinity value is
converted to null before the tree crosses the JSON-serialization boundary
(the results.json written through the ResultsSink)" is false — the
pipeline serializer `_serialize_for_json` preserves NaN, and `json.dump`
(as invoked by `LocalResultsSink.write_json`, with the default
`allow_nan=True`) writes the `NaN` / `Infinity` tokens, not `null`. -/
theorem c4_nan_to_null_counterexample :
    containsNonFinite (serialize_for_json nanResultTree) = true ∧
    serialize_for_json nanResultTree
      = .jobj [("volumetry", .jobj [("monthly_seasonality_cv", .jnum .nan)])] ∧
    jsonFloatToken PyF.nan ≠ "null" ∧ jsonFloatToken PyF.inf ≠ "null" :=
  ⟨rfl, rfl, by decide, by decide⟩

/-- C4 amended: NaN/Infinity pass through the pipeline function
`_serialize_for_json` unchanged and reach the results.json written through
the ResultsSink as `NaN` / `Infinity` / `-Infinity` tokens; the conversion
to null happens only at the HTTP-response boundary, where the API-layer
`sanitize_for_json` removes every non-finite value. -/
theorem c4_nan_to_null_amended :
    (∀ x : PyF, serialize_for_json (.pFloat x) = .jnum x) ∧
    (jsonFloatToken PyF.nan = "NaN" ∧ jsonFloatToken PyF.inf = "Infinity" ∧
      jsonFloatToken PyF.ninf = "-Infinity") ∧
    (∀ v : JVal, containsNonFinite (sanitize_for_json v) = false) :=
  ⟨fun _ => rfl, ⟨rfl, rfl, rfl⟩, sanitize_noNonFinite⟩

lemma op_prepare_length (rows : List OpRow) : (op_prepare rows).length = rows.length := by
  simp [op_prepare]

lemma escalation_rate_num (t : OpTable) (h : t.rows ≠ []) :
    ∃ q, escalation_rate t = .num q := by
  simp only [escalation_rate, op_prepare_length]
  rw [if_neg (by simpa [List.length_eq_zero] using h)]
  exact ⟨_, rfl⟩

lemma clamp100_num (x : ℚ) :
    ∃ p, pyMax (.num 0) (pyMin (.num 100) (.num x)) = PyF.num p := by
  unfold pyMax pyMin
  split_ifs <;> exact ⟨_, rfl⟩

/-- A one-row table that has every required column but none of the
optional columns (no resolution flag, no FCR flag, no abandonment column,
no customer/caller identifier). -/
def opTableNoOptional : OpTable :=
  { rows := [{ interaction_id := "id1", datetime_start := some 0,
               queue_skill := "ventas", channel := "voz",
               transfer_flag := false, is_resolved := false,
               fcr_real_flag := false, is_abandoned := false,
               abandoned_flag := false, abandoned := false,
               customer_id := "", caller_id := "" }],
    has_fcr_real_flag := false, has_is_resolved := false,
    has_is_abandoned := false, has_abandoned_flag := false,
    has_abandoned := false, has_customer_id := false, has_caller_id := false }

/-- C2 counterexample: on a non-empty table with all required columns and
no optional columns, `fcr_rate` does NOT return NaN — the fallback
`100 - escalation_rate` is computable from the required `transfer_flag`
column, so it returns 100.0 here, while abandonment and recurrence do
return NaN. -/
theorem c2_all_optional_missing_counterexample :
    fcr_rate opTableNoOptional = PyF.num 100 ∧
    fcr_rate opTableNoOptional ≠ PyF.nan ∧
    abandonment_rate opTableNoOptional = PyF.nan ∧
    recurrence_rate_7d opTableNoOptional = PyF.nan := by
  refine ⟨?_, ?_, ?_, ?_⟩
  · norm_num [fcr_rate, escalation_rate, op_prepare, opTableNoOptional,
      pyRoundQ, pyRoundInt, pyMax, pyMin, pyRound, PyF.sub, PyF.neg, PyF.add, PyF.lt]
  · norm_num [fcr_rate, escalation_rate, op_prepare, opTableNoOptional,
      pyRoundQ, pyRoundInt, pyMax, pyMin, pyRound, PyF.sub, PyF.neg, PyF.add, PyF.lt]
    decide
  · simp [abandonment_rate, op_prepare, opTableNoOptional]
  · simp [recurrence_rate_7d, customerOf, op_prepare, opTableNoOptional]

/-- C2 amended: for every table with all required columns and none of the
optional columns, `abandonment_rate` and `recurrence_rate_7d` return NaN
(not computed) and the metrics complete without error, but `fcr_rate`
falls back to `100 - escalation_rate` (computable from the required
`transfer_flag` column): it is NaN only when the table is empty. -/
theorem c2_all_optional_missing_amended (t : OpTable)
    (hf : t.has_fcr_real_flag = false)
    (hia : t.has_is_abandoned = false)
    (haf : t.has_abandoned_flag = false)
    (hab : t.has_abandoned = false)
    (hc : t.has_customer_id = false)
    (hl : t.has_caller_id = false) :
    abandonment_rate t = PyF.nan ∧
    recurrence_rate_7d t = PyF.nan ∧
    (t.rows = [] → fcr_rate t = PyF.nan) ∧
    (t.rows ≠ [] →
      fcr_rate t =
        pyMax (.num 0) (pyMin (.num 100)
          (pyRound 2 (PyF.sub (.num 100) (escalation_rate t))))) := by
  refine ⟨?_, ?_, ?_, ?_⟩
  · simp [abandonment_rate, hia, haf, hab]
  · simp [recurrence_rate_7d, customerOf, hc, hl]
  · intro h
    simp [fcr_rate, h, op_prepare]
  · intro h
    obtain ⟨q, hq⟩ := escalation_rate_num t h
    rw [hq]
    simp only [fcr_rate, op_prepare_length, hf, hq]
    rw [if_neg (by simpa [List.length_eq_zero] using h)]
    simp

theorem c2_all_optional_missing_amended_witness :
    abandonment_rate opTableNoOptional = PyF.nan ∧
    recurrence_rate_7d opTableNoOptional = PyF.nan ∧
    fcr_rate opTableNoOptional =
      pyMax (.num 0) (pyMin (.num 100)
        (pyRound 2 (PyF.sub (.num 100) (escalation_rate opTableNoOptional)))) := by
  have h := c2_all_optional_missing_amended opTableNoOptional rfl rfl rfl rfl rfl rfl
  exact ⟨h.1, h.2.1, h.2.2.2 (by simp [opTableNoOptional])⟩

/-- A one-row table that has an explicit resolution flag column
(`is_resolved`, all true) and a transfer on every row, and no
`fcr_real_flag` column. -/
def opTableResolved : OpTable :=
  { rows := [{ interaction_id := "id1", datetime_start := some 0,
               queue_skill := "ventas", channel := "voz",
               transfer_flag := true, is_resolved := true,
               fcr_real_flag := false, is_abandoned := false,
               abandoned_flag := false, abandoned := false,
               customer_id := "", caller_id := "" }],
    has_fcr_real_flag := false, has_is_resolved := true,
    has_is_abandoned := false, has_abandoned_flag := false,
    has_abandoned := false, has_customer_id := false, has_caller_id := false }

/-- C3 counterexample: the claimed three-tier fallback (resolution flag
first) disagrees with the code on a table whose `is_resolved` column is
present and all-true while every row is transferred — the three-tier rule
would report 100, but `fcr_rate` ignores `is_resolved` and computes
`100 - escalation_rate = 0`. -/
theorem c3_three_tier_counterexample :
    fcr_rate_spec_three_tier opTableResolved = PyF.num 100 ∧
    fcr_rate opTableResolved = PyF.num 0 ∧
    fcr_rate opTableResolved ≠ fcr_rate_spec_three_tier opTableResolved := by
  have h1 : fcr_rate_spec_three_tier opTableResolved = PyF.num 100 := by
    norm_num [fcr_rate_spec_three_tier, escalation_rate, op_prepare, opTableResolved,
      pyRoundQ, pyRoundInt, pyMax, pyMin, pyRound, PyF.sub, PyF.neg, PyF.add, PyF.lt]
  have h2 : fcr_rate opTableResolved = PyF.num 0 := by
    norm_num [fcr_rate, escalation_rate, op_prepare, opTableResolved,
      pyRoundQ, pyRoundInt, pyMax, pyMin, pyRound, PyF.sub, PyF.neg, PyF.add, PyF.lt]
  refine ⟨h1, h2, ?_⟩
  rw [h1, h2]
  simp

/-- C3 amended: the first-contact-resolution rate is computed with a
two-tier fallback — the explicit FCR flag column (`fcr_real_flag`) when
present, otherwise `100 - escalation_rate` clamped to `[0, 100]`; the
explicit resolution flag (`is_resolved`) is never consulted; the result is
NaN exactly when the table is empty. -/
theorem c3_fcr_two_tier_amended (t : OpTable) :
    fcr_rate t = fcr_rate_spec_two_tier t ∧
    (fcr_rate t = PyF.nan ↔ t.rows = []) := by
  constructor
  · rfl
  · constructor
    · intro hnan
      by_contra hne
      obtain ⟨q, hq⟩ := escalation_rate_num t hne
      simp only [fcr_rate, op_prepare_length] at hnan
      rw [if_neg (by simpa [List.length_eq_zero] using hne)] at hnan
      by_cases hf : t.has_fcr_real_flag
      · rw [if_pos hf] at hnan
        obtain ⟨p, hp⟩ := clamp100_num
          (pyRoundQ 2 ((((op_prepare t.rows).filter (fun r => r.fcr_real_flag)).length : ℚ)
            / ((t.rows.length : ℕ) : ℚ) * 100))
        rw [hp] at hnan
        exact PyF.noConfusion hnan
      · rw [if_neg hf, hq] at hnan
        simp only [PyF.sub, PyF.neg, PyF.add, pyRound] at hnan
        obtain ⟨p, hp⟩ := clamp100_num (pyRoundQ 2 (100 + -q))
        rw [hp] at hnan
        exact PyF.noConfusion hnan
    · intro h
      simp [fcr_rate, h, op_prepare]

/-- C10: `peak_offpeak_ratio` returns positive infinity (not NaN, not an
error — the embedded metric is a total function) whenever the off-peak
volume is zero while the peak volume is positive; it returns NaN when both
volumes are zero, and in particular when no row carries a valid
timestamp. -/
theorem c10_peak_offpeak_special_values (rows : List VolRow) :
    (off_vol_of rows = 0 → 0 < peak_vol_of rows → peak_offpeak_ratio_fn rows = PyF.inf) ∧
    (peak_vol_of rows = 0 → off_vol_of rows = 0 → peak_offpeak_ratio_fn rows = PyF.nan) ∧
    ((vol_prepare rows).filter (fun r => r.datetime_start.isSome) = [] →
      peak_offpeak_ratio_fn rows = PyF.nan) := by
  refine ⟨?_, ?_, ?_⟩
  · intro hoff hpeak
    by_cases hdf : ((vol_prepare rows).filter (fun r => r.datetime_start.isSome)).isEmpty
    · exfalso
      have hz : peak_vol_of rows = 0 := by
        unfold peak_vol_of
        rw [List.isEmpty_iff.mp hdf]
        rfl
      omega
    · unfold peak_offpeak_ratio_fn
      rw [if_neg (by simpa using hdf), if_pos hoff, if_pos hpeak]
  · intro hpeak hoff
    by_cases hdf : ((vol_prepare rows).filter (fun r => r.datetime_start.isSome)).isEmpty
    · unfold peak_offpeak_ratio_fn
      rw [if_pos (by simpa using hdf)]
    · unfold peak_offpeak_ratio_fn
      rw [if_neg (by simpa using hdf), if_pos hoff, if_neg (by omega)]
  · intro h
    unfold peak_offpeak_ratio_fn
    rw [h]
    rfl

/-- A table whose single row falls inside the peak window (hour 12) and an
empty table, used to exercise the special values of the ratio. -/
def volTablePeakOnly : List VolRow :=
  [{ interaction_id := "id1", datetime_start := some ⟨12⟩,
     queue_skill := "ventas", channel := "voz" }]

theorem c10_peak_offpeak_special_values_witness :
    peak_offpeak_ratio_fn volTablePeakOnly = PyF.inf ∧
    peak_offpeak_ratio_fn ([] : List VolRow) = PyF.nan :=
  ⟨(c10_peak_offpeak_special_values volTablePeakOnly).1 (by decide) (by decide),
   (c10_peak_offpeak_special_values ([] : List VolRow)).2.1 (by decide) (by decide)⟩

lemma sum_grouped_nunique {α β γ : Type} [DecidableEq β] [DecidableEq γ]
    (rows : List α) (key : α → β) (idf : α → γ) :
    (((rows.map key).dedup).map
      (fun c => ((rows.filter (fun r => decide (key r = c))).map idf).dedup.length)).sum
    = ((rows.map (fun r => (key r, idf r))).dedup).length := by
  classical
  have hLHS :
      (((rows.map key).dedup).map
        (fun c => ((rows.filter (fun r => decide (key r = c))).map idf).dedup.length)).sum
      = ∑ c ∈ (rows.map key).toFinset,
          ((rows.filter (fun r => decide (key r = c))).map idf).toFinset.card := by
    have hdt : ((rows.map key).dedup).toFinset = (rows.map key).toFinset := by
      ext x
      simp
    rw [← hdt, List.sum_toFinset _ (List.nodup_dedup _)]
    simp [List.card_toFinset]
  have hpair :
      (rows.map (fun r => (key r, idf r))).toFinset
      = (rows.map key).toFinset.biUnion
          (fun c => (((rows.filter (fun r => decide (key r = c))).map idf).toFinset).image
            (fun i => (c, i))) := by
    ext p
    rcases p with ⟨a, b⟩
    simp only [List.mem_toFinset, List.mem_map, Finset.mem_biUnion, Finset.mem_image,
      List.mem_filter, decide_eq_true_eq, Prod.mk.injEq]
    constructor
    · rintro ⟨r, hr, hk, hi⟩
      exact ⟨a, ⟨r, hr, hk⟩, b, ⟨r, ⟨hr, hk⟩, hi⟩, rfl, rfl⟩
    · rintro ⟨c, _, i, ⟨r, ⟨hr, hk⟩, hi⟩, hca, hib⟩
      exact ⟨r, hr, by rw [hk, hca], by rw [hi, hib]⟩
  have hdisj : ∀ c1 ∈ (rows.map key).toFinset, ∀ c2 ∈ (rows.map key).toFinset, c1 ≠ c2 →
      Disjoint ((((rows.filter (fun r => decide (key r = c1))).map idf).toFinset).image
                  (fun i => (c1, i)))
               ((((rows.filter (fun r => decide (key r = c2))).map idf).toFinset).image
                  (fun i => (c2, i))) := by
    intro c1 _ c2 _ hne
    rw [Finset.disjoint_left]
    rintro ⟨a, b⟩ h1 h2
    simp only [Finset.mem_image] at h1 h2
    obtain ⟨i1, _, h1e⟩ := h1
    obtain ⟨i2, _, h2e⟩ := h2
    apply hne
    have e1 : a = c1 := by cases h1e; rfl
    have e2 : a = c2 := by cases h2e; rfl
    rw [← e1, e2]
  calc (((rows.map key).dedup).map
        (fun c => ((rows.filter (fun r => decide (key r = c))).map idf).dedup.length)).sum
      = ∑ c ∈ (rows.map key).toFinset,
          ((rows.filter (fun r => decide (key r = c))).map idf).toFinset.card := hLHS
    _ = ∑ c ∈ (rows.map key).toFinset,
          ((((rows.filter (fun r => decide (key r = c))).map idf).toFinset).image
            (fun i => (c, i))).card := by
          refine Finset.sum_congr rfl (fun c _ => ?_)
          rw [Finset.card_image_of_injective _ (fun i j h => by cases h; rfl)]
    _ = ((rows.map key).toFinset.biUnion
          (fun c => (((rows.filter (fun r => decide (key r = c))).map idf).toFinset).image
            (fun i => (c, i)))).card := (Finset.card_biUnion hdisj).symm
    _ = (rows.map (fun r => (key r, idf r))).toFinset.card := by rw [← hpair]
    _ = ((rows.map (fun r => (key r, idf r))).dedup).length := List.card_toFinset _

lemma pairs_dedup_length_eq {α β γ : Type} [DecidableEq β] [DecidableEq γ]
    (rows : List α) (key : α → β) (idf : α → γ)
    (h : ∀ r ∈ rows, ∀ s ∈ rows, idf r = idf s → key r = key s) :
    ((rows.map (fun r => (key r, idf r))).dedup).length = ((rows.map idf).dedup).length := by
  classical
  rw [← List.card_toFinset, ← List.card_toFinset]
  have himg : (rows.map (fun r => (key r, idf r))).toFinset.image Prod.snd
      = (rows.map idf).toFinset := by
    ext b
    simp only [Finset.mem_image, List.mem_toFinset, List.mem_map]
    constructor
    · rintro ⟨⟨a, b0⟩, ⟨r, hr, he⟩, hsnd⟩
      cases he
      exact ⟨r, hr, hsnd⟩
    · rintro ⟨r, hr, he⟩
      exact ⟨(key r, idf r), ⟨r, hr, rfl⟩, he⟩
  rw [← himg, Finset.card_image_of_injOn]
  intro p hp q hq hsnd
  simp only [Finset.mem_coe, List.mem_toFinset, List.mem_map] at hp hq
  obtain ⟨r, hr, hre⟩ := hp
  obtain ⟨t, ht, hte⟩ := hq
  cases hre
  cases hte
  have hid : idf r = idf t := hsnd
  exact Prod.ext (h r hr t ht hid) hid

lemma seriesSum_mergeSort (l : List (String × ℕ))
    (le : (String × ℕ) → (String × ℕ) → Bool) :
    seriesSum (l.mergeSort le) = seriesSum l := by
  unfold seriesSum
  exact List.Perm.sum_eq (List.Perm.map _ (List.mergeSort_perm l le))

lemma grouped_nunique_sum (rows : List VolRow) (key : VolRow → String) :
    seriesSum (grouped_nunique rows key)
      = ((rows.map (fun r => (key r, r.interaction_id))).dedup).length := by
  have h := sum_grouped_nunique rows key (fun r => r.interaction_id)
  unfold seriesSum grouped_nunique
  rw [List.map_map]
  simpa using h

lemma vol_prepare_ids (rows : List VolRow) :
    (vol_prepare rows).map (fun r => r.interaction_id)
      = rows.map (fun r => r.interaction_id) := by
  simp [vol_prepare]

/-- C8 amended: the sum of `volume_by_channel` equals the number of
distinct `(channel, interaction_id)` pairs and the sum of
`volume_by_skill` the number of distinct `(skill, interaction_id)` pairs;
whenever every `interaction_id` occurs with a single channel and a single
skill (in particular when ids are unique per row), both sums equal the
number of distinct `interaction_id` values, and hence each other. -/
theorem c8_volume_sum_amended (rows : List VolRow)
    (hch : ∀ r ∈ vol_prepare rows, ∀ s ∈ vol_prepare rows,
      r.interaction_id = s.interaction_id → r.channel = s.channel)
    (hsk : ∀ r ∈ vol_prepare rows, ∀ s ∈ vol_prepare rows,
      r.interaction_id = s.interaction_id → r.queue_skill = s.queue_skill) :
    seriesSum (volume_by_channel rows) = distinct_interaction_count rows ∧
    seriesSum (volume_by_skill_m rows) = distinct_interaction_count rows ∧
    seriesSum (volume_by_channel rows) = seriesSum (volume_by_skill_m rows) := by
  have hchannel : seriesSum (volume_by_channel rows) = distinct_interaction_count rows := by
    calc seriesSum (volume_by_channel rows)
        = seriesSum (grouped_nunique (vol_prepare rows) (fun r => r.channel)) :=
          seriesSum_mergeSort _ _
      _ = (((vol_prepare rows).map (fun r => (r.channel, r.interaction_id))).dedup).length :=
          grouped_nunique_sum _ _
      _ = (((vol_prepare rows).map (fun r => r.interaction_id)).dedup).length :=
          pairs_dedup_length_eq _ _ _ (fun r hr s hs hid => hch r hr s hs hid)
      _ = distinct_interaction_count rows := by
          rw [vol_prepare_ids]
          rfl
  have hskill : seriesSum (volume_by_skill_m rows) = distinct_interaction_count rows := by
    calc seriesSum (volume_by_skill_m rows)
        = seriesSum (grouped_nunique (vol_prepare rows) (fun r => r.queue_skill)) :=
          seriesSum_mergeSort _ _
      _ = (((vol_prepare rows).map (fun r => (r.queue_skill, r.interaction_id))).dedup).length :=
          grouped_nunique_sum _ _
      _ = (((vol_prepare rows).map (fun r => r.interaction_id)).dedup).length :=
          pairs_dedup_length_eq _ _ _ (fun r hr s hs hid => hsk r hr s hs hid)
      _ = distinct_interaction_count rows := by
          rw [vol_prepare_ids]
          rfl
  exact ⟨hchannel, hskill, by rw [hchannel, hskill]⟩

/-- A two-row table in which the same interaction id appears under two
different channels (same skill). -/
def volTableDupId : List VolRow :=
  [{ interaction_id := "A", datetime_start := some ⟨12⟩, queue_skill := "S", channel := "voz" },
   { interaction_id := "A", datetime_start := some ⟨13⟩, queue_skill := "S", channel := "chat" }]

/-- A two-row table with unique interaction ids, used as a witness. -/
def volTableUnique : List VolRow :=
  [{ interaction_id := "A", datetime_start := some ⟨12⟩, queue_skill := "S", channel := "voz" },
   { interaction_id := "B", datetime_start := some ⟨13⟩, queue_skill := "T", channel := "chat" }]

theorem c8_volume_sum_amended_witness :
    seriesSum (volume_by_channel volTableUnique) = distinct_interaction_count volTableUnique ∧
    seriesSum (volume_by_skill_m volTableUnique) = distinct_interaction_count volTableUnique ∧
    seriesSum (volume_by_channel volTableUnique) = seriesSum (volume_by_skill_m volTableUnique) :=
  c8_volume_sum_amended volTableUnique (by decide) (by decide)

/-- C8 counterexample: with a duplicated interaction id across two
channels, `Σ volume_by_channel = 2` while both `Σ volume_by_skill` and the
distinct-id count are 1, so the claimed identity fails. -/
theorem c8_volume_sum_counterexample :
    ¬ (∀ rows : List VolRow,
        seriesSum (volume_by_channel rows) = seriesSum (volume_by_skill_m rows) ∧
        seriesSum (volume_by_channel rows) = distinct_interaction_count rows) := by
  intro hall
  obtain ⟨-, h2⟩ := hall volTableDupId
  rw [show seriesSum (volume_by_channel volTableDupId)
        = seriesSum (grouped_nunique (vol_prepare volTableDupId) (fun r => r.channel)) from
      seriesSum_mergeSort _ _] at h2
  exact absurd h2 (by decide)

/-- The six sub-score entries as a keyed list, abstracted over the six
records (the shape of the `sub_scores` dict). -/
def sixSubs (s1 s2 s3 s4 s5 s6 : SubScore) : List (String × SubScore) :=
  [("repetitividad", s1), ("predictibilidad", s2), ("estructuracion", s3),
   ("complejidad", s4), ("estabilidad", s5), ("roi", s6)]

set_option maxHeartbeats 4000000 in
lemma composite_core (s1 s2 s3 s4 s5 s6 : SubScore) :
    (final_score_of (sixSubs s1 s2 s3 s4 s5 s6) = none ↔
      ∀ p ∈ sixSubs s1 s2 s3 s4 s5 s6, p.2.computed = false) ∧
    normalized_weights (sixSubs s1 s2 s3 s4 s5 s6)
      = (base_weights.filter (fun p => subComputed (sixSubs s1 s2 s3 s4 s5 s6) p.1)).map
          (fun p => (p.1, p.2 / total_effective_weight (sixSubs s1 s2 s3 s4 s5 s6))) ∧
    ((normalized_weights (sixSubs s1 s2 s3 s4 s5 s6)).map (fun p => p.2)).sum
      = (if ∃ p ∈ sixSubs s1 s2 s3 s4 s5 s6, p.2.computed = true then 1 else 0) ∧
    final_score_of (sixSubs s1 s2 s3 s4 s5 s6)
      = (if ∀ p ∈ sixSubs s1 s2 s3 s4 s5 s6, p.2.computed = false then none
         else some (pyRoundQ 2
           ((((sixSubs s1 s2 s3 s4 s5 s6).filter (fun p => p.2.computed)).map
             (fun p => (p.2.score.getD 0)
               * ((lookupA base_weights p.1).getD 0
                  / total_effective_weight (sixSubs s1 s2 s3 s4 s5 s6)))).sum))) := by
  rcases s1 with ⟨sc1, c1, r1⟩
  rcases s2 with ⟨sc2, c2, r2⟩
  rcases s3 with ⟨sc3, c3, r3⟩
  rcases s4 with ⟨sc4, c4, r4⟩
  rcases s5 with ⟨sc5, c5, r5⟩
  rcases s6 with ⟨sc6, c6, r6⟩
  cases c1 <;> cases c2 <;> cases c3 <;> cases c4 <;> cases c5 <;> cases c6 <;>
    refine ⟨?_, ?_, ?_, ?_⟩ <;>
    simp [sixSubs, final_score_of, normalized_weights, effective_weights,
      total_effective_weight, base_weights, subComputed, lookupA, scoreAcc,
      List.find?] <;>
    norm_num [List.find?, lookupA] <;>
    simp

/-- C1: for every input result tree, the normalized weights of the composite
scorer are exactly the base weights restricted to the computed sub-scores
rescaled by their total (so when the computed subset is non-empty the
normalized weights sum to exactly 1 — stronger than the claimed 1e-9
tolerance); `final_score` is null iff no sub-score is computed; otherwise
it equals the weighted mean of the computed sub-score values under those
normalized weights, rounded to 2 decimals (Python half-even rounding). -/
theorem c1_composite_score_invariant (d : ResultsData) :
    ((compute_from_data d).final_score = none ↔
      ∀ p ∈ (compute_from_data d).subScoresOut, p.2.computed = false) ∧
    (compute_from_data d).normalizedWeightsOut
      = (base_weights.filter (fun p => subComputed (sub_scores_list d) p.1)).map
          (fun p => (p.1, p.2 / total_effective_weight (sub_scores_list d))) ∧
    (((compute_from_data d).normalizedWeightsOut).map (fun p => p.2)).sum
      = (if ∃ p ∈ (compute_from_data d).subScoresOut, p.2.computed = true then 1 else 0) ∧
    (compute_from_data d).final_score
      = (if ∀ p ∈ (compute_from_data d).subScoresOut, p.2.computed = false then none
         else some (pyRoundQ 2
           ((((sub_scores_list d).filter (fun p => p.2.computed)).map
             (fun p => (p.2.score.getD 0)
               * ((lookupA base_weights p.1).getD 0
                  / total_effective_weight (sub_scores_list d)))).sum))) :=
  composite_core
    (score_repetitividad (normalize_numeric_sequence d.volume_by_skill))
    (score_predictibilidad d.ahtP90P50Field d.escalationField)
    (score_estructuracion (normalize_numeric_sequence d.channel_distribution_pct))
    (score_complejidad d.ahtP90P50Field d.escalationField)
    (score_estabilidad d.peakOffpeakField)
    (score_roi d.annualSavingsField)
